import Mathlib

/-!
Shallow embedding of the `CipherLending` Solidity contract
(contract `CipherLending` in the repository, `pragma solidity ^0.8.27`).

Modelling conventions:
- Account addresses are `Nat`; the ledger (contract) itself is a separate
  `Principal.ledger` constructor for access-control-list purposes.
- FHE handles (`euint32`, `ebool`) are `Nat`; handle `0` is the all-zero
  handle that an unset `ebool` storage slot holds (the empty sentinel).
  Fresh handles are drawn from a `nextHandle` counter starting at `1`.
  Mirroring the local-simulation mode of the FHE service, the state keeps
  the plaintext behind each handle in `handleVal`, and the set of decrypt
  grants in `allowed`; callers of the embedding only ever see handles.
- `uint32` casts are `% 2 ^ 32`; `uint256` values are `Nat` (no arithmetic
  is performed on them in this contract, so no overflow can occur).
- Each state-mutating entry point returns `Except String r × State`.
  A `require` failure returns the revert message and the state built so
  far; theorems below show every error exit returns the entry state
  unchanged, which is exactly the EVM revert semantics.
- Emitted events are appended to an `events` log in the state.
-/

abbrev Address := Nat

/-- The 32-bit modulus used for `uint32` casts. -/
def uint32Mod : Nat := 2 ^ 32

/-- A principal that may hold a decrypt capability on a handle: either the
ledger contract itself (`FHE.allowThis`) or an external account
(`FHE.allow`). -/
inductive Principal where
  | ledger : Principal
  | acct : Address → Principal
deriving DecidableEq, Repr

/-- Struct `BorrowerRequest` of the contract. `encryptedScore` is the
`euint32` handle. -/
structure BorrowerRequest where
  borrower : Address
  encryptedScore : Nat
  amount : Nat
  term : Nat
  isActive : Bool
deriving DecidableEq, Repr

/-- Struct `LenderOffer` of the contract. -/
structure LenderOffer where
  lender : Address
  borrowerRequestId : Nat
  amount : Nat
  apr : Nat
  term : Nat
  isActive : Bool
deriving DecidableEq, Repr

/-- Struct `Loan` of the contract. -/
structure Loan where
  borrower : Address
  lender : Address
  amount : Nat
  apr : Nat
  term : Nat
  startTime : Nat
  isActive : Bool
  isRepaid : Bool
deriving DecidableEq, Repr

/-- The events the contract declares. `LoanRepaid` is declared in the
source but no function ever emits it. -/
inductive Event where
  | newBorrowerRequest (requestId : Nat) (borrower : Address) (amount : Nat)
  | newLenderOffer (offerId : Nat) (requestId : Nat) (lender : Address) (amount : Nat)
  | loanCreated (loanId : Nat) (borrower : Address) (lender : Address) (amount : Nat)
  | loanRepaid (loanId : Nat) (amount : Nat)
deriving DecidableEq, Repr

/-- The contract's storage, together with the state of the FHE service it
talks to. `comparisonResults` embeds the mapping
`(requestId, minScore, caller) => ebool`: the newest entry for a key
stands first, and a key with no entry reads as handle `0`, the unset
`ebool` slot. `nextLoanId` is declared in the source and never used. -/
structure State where
  borrowerRequests : List BorrowerRequest
  lenderOffers : List LenderOffer
  loans : List Loan
  nextLoanId : Nat
  comparisonResults : List ((Nat × Nat × Address) × Nat)
  nextHandle : Nat
  handleVal : Nat → Nat
  allowed : List (Nat × Principal)
  events : List Event

/-- The state of a freshly deployed contract: empty collections, no
handles issued yet. -/
def initialState : State where
  borrowerRequests := []
  lenderOffers := []
  loans := []
  nextLoanId := 0
  comparisonResults := []
  nextHandle := 1
  handleVal := fun _ => 0
  allowed := []
  events := []

/-- An `externalEuint32` ciphertext together with its `inputProof`, as the
FHE service sees them: the plaintext it decrypts to and whether the proof
verifies. -/
structure ExternalInput where
  val : Nat
  proofValid : Bool
deriving DecidableEq, Repr

/-- `FHE.fromExternal`: verify the proof and issue a fresh internal handle
for the ciphertext. Rejecting the proof reverts the transaction. -/
def fheFromExternal (s : State) (input : ExternalInput) : Except String Nat × State :=
  if input.proofValid then
    let h := s.nextHandle
    (.ok h,
      { s with
        nextHandle := h + 1
        handleVal := fun x => if x = h then input.val % uint32Mod else s.handleVal x })
  else
    (.error "Invalid input proof", s)

/-- `FHE.asEuint32`: trivially encrypt a plaintext `uint32`, issuing a
fresh handle. -/
def fheAsEuint32 (s : State) (v : Nat) : Nat × State :=
  let h := s.nextHandle
  (h,
    { s with
      nextHandle := h + 1
      handleVal := fun x => if x = h then v % uint32Mod else s.handleVal x })

/-- `FHE.ge`: homomorphic greater-or-equal on two handles, issuing a fresh
handle for the encrypted boolean (`1` for true, `0` for false). -/
def fheGe (s : State) (a b : Nat) : Nat × State :=
  let h := s.nextHandle
  (h,
    { s with
      nextHandle := h + 1
      handleVal := fun x => if x = h then (if s.handleVal a ≥ s.handleVal b then 1 else 0) else s.handleVal x })

/-- `FHE.allowThis`: grant the ledger contract decrypt capability on a
handle. -/
def fheAllowThis (s : State) (h : Nat) : State :=
  { s with allowed := (h, Principal.ledger) :: s.allowed }

/-- `FHE.allow`: grant an account decrypt capability on a handle. -/
def fheAllow (s : State) (h : Nat) (a : Address) : State :=
  { s with allowed := (h, Principal.acct a) :: s.allowed }

/-- `submitBorrowerRequest(encryptedScore, amount, term, inputProof)`.
The source declares no return value; the new request's id travels in the
`NewBorrowerRequest` event. -/
def submitBorrowerRequest (s : State) (caller : Address) (encryptedScore : ExternalInput)
    (amount term : Nat) : Except String Unit × State :=
  if amount > 0 then
    if term > 0 ∧ term ≤ 120 then
      match fheFromExternal s encryptedScore with
      | (.error e, s1) => (.error e, s1)
      | (.ok score, s1) =>
        let s2 := fheAllowThis s1 score
        let s3 := fheAllow s2 score caller
        let request : BorrowerRequest :=
          { borrower := caller, encryptedScore := score, amount := amount,
            term := term, isActive := true }
        let s4 := { s3 with borrowerRequests := s3.borrowerRequests ++ [request] }
        let requestId := s4.borrowerRequests.length - 1
        let s5 := { s4 with events := s4.events ++ [Event.newBorrowerRequest requestId caller amount] }
        (.ok (), s5)
    else (.error "Term must be between 1-120 months", s)
  else (.error "Amount must be greater than 0", s)

/-- Whether request `i` exists and is active — the loop condition of
`findMatches`. -/
def requestActive (s : State) (i : Nat) : Bool :=
  match s.borrowerRequests[i]? with
  | some r => r.isActive
  | none => false

/-- `findMatches(_minScore)`: a `view` function; collects the indices of
all active requests in ascending order. The `_minScore` parameter is read
once to silence the unused-parameter warning and never used. -/
def findMatches (s : State) (minScore : Nat) : List Nat :=
  let _ := minScore
  (List.range s.borrowerRequests.length).filter (requestActive s)

/-- `checkScoreMatch(requestId, minScore)`: FHE-compare the stored score
against the threshold, cache the encrypted-boolean handle under
`(requestId, minScore, caller)`, grant decrypt capability to the contract
and the caller, and return the handle. -/
def checkScoreMatch (s : State) (caller : Address) (requestId minScore : Nat) :
    Except String Nat × State :=
  match s.borrowerRequests[requestId]? with
  | none => (.error "Invalid request ID", s)
  | some request =>
    if request.isActive then
      let (minScoreEncrypted, s1) := fheAsEuint32 s minScore
      let (comparisonResult, s2) := fheGe s1 request.encryptedScore minScoreEncrypted
      let s3 := { s2 with
        comparisonResults := ((requestId, minScore, caller), comparisonResult) :: s2.comparisonResults }
      let s4 := fheAllowThis s3 comparisonResult
      let s5 := fheAllow s4 comparisonResult caller
      (.ok comparisonResult, s5)
    else (.error "Request is not active", s)

/-- `getComparisonResult(requestId, minScore, caller)`: pure mapping read;
an unset slot reads as the all-zero `ebool` handle `0`. -/
def getComparisonResult (s : State) (requestId minScore : Nat) (caller : Address) : Nat :=
  match s.comparisonResults.find? (fun e => e.1 == (requestId, minScore, caller)) with
  | some e => e.2
  | none => 0

/-- `getEncryptedScore(requestId)`: bounds-checked read of the stored
score handle. -/
def getEncryptedScore (s : State) (requestId : Nat) : Except String Nat :=
  match s.borrowerRequests[requestId]? with
  | none => .error "Invalid request ID"
  | some r => .ok r.encryptedScore

/-- `submitLenderOffer(borrowerRequestId, amount, apr, term)`. The source
declares no return value; the new offer's id travels in the
`NewLenderOffer` event. -/
def submitLenderOffer (s : State) (caller : Address)
    (borrowerRequestId amount apr term : Nat) : Except String Unit × State :=
  match s.borrowerRequests[borrowerRequestId]? with
  | none => (.error "Invalid request ID", s)
  | some request =>
    if request.isActive then
      if amount > 0 then
        if apr > 0 ∧ apr ≤ 10000 then
          if term > 0 ∧ term ≤ 120 then
            let offer : LenderOffer :=
              { lender := caller, borrowerRequestId := borrowerRequestId,
                amount := amount, apr := apr, term := term, isActive := true }
            let s1 := { s with lenderOffers := s.lenderOffers ++ [offer] }
            let offerId := s1.lenderOffers.length - 1
            let s2 := { s1 with
              events := s1.events ++ [Event.newLenderOffer offerId borrowerRequestId caller amount] }
            (.ok (), s2)
          else (.error "Term must be between 1-120 months", s)
        else (.error "APR must be between 1-10000 basis points", s)
      else (.error "Amount must be greater than 0", s)
    else (.error "Request is not active", s)

/-- `acceptLoanOffer(offerId)`: a `payable` function; `msgValue` is the
attached value and `blockTime` the block timestamp. The source declares
no return value; the new loan's id travels in the `LoanCreated` event.
Reading `borrowerRequests[offer.borrowerRequestId]` cannot go out of
bounds in a reachable state (offers only ever reference existing
requests); the embedding returns the uncatchable Panic(0x32) exit there. -/
def acceptLoanOffer (s : State) (caller : Address) (msgValue blockTime offerId : Nat) :
    Except String Unit × State :=
  match s.lenderOffers[offerId]? with
  | none => (.error "Invalid offer ID", s)
  | some offer =>
    if offer.isActive then
      match s.borrowerRequests[offer.borrowerRequestId]? with
      | none => (.error "Panic(0x32): array index out of bounds", s)
      | some request =>
        if request.isActive then
          if request.borrower = caller then
            if msgValue = 0 then
              let loan : Loan :=
                { borrower := request.borrower, lender := offer.lender,
                  amount := offer.amount, apr := offer.apr, term := offer.term,
                  startTime := blockTime % uint32Mod, isActive := true, isRepaid := false }
              let s1 := { s with loans := s.loans ++ [loan] }
              let loanId := s1.loans.length - 1
              let s2 := { s1 with
                borrowerRequests :=
                  s1.borrowerRequests.set offer.borrowerRequestId { request with isActive := false }
                lenderOffers := s1.lenderOffers.set offerId { offer with isActive := false } }
              let s3 := { s2 with
                events := s2.events ++ [Event.loanCreated loanId request.borrower offer.lender offer.amount] }
              (.ok (), s3)
            else (.error "Do not send ETH directly", s)
          else (.error "Only borrower can accept offer", s)
        else (.error "Borrower request is not active", s)
    else (.error "Offer is not active", s)

/-- `getBorrowerRequestsCount()`. -/
def getBorrowerRequestsCount (s : State) : Nat :=
  s.borrowerRequests.length

/-- `getLenderOffersCount()`. -/
def getLenderOffersCount (s : State) : Nat :=
  s.lenderOffers.length

/-- `getLoansCount()`. -/
def getLoansCount (s : State) : Nat :=
  s.loans.length

/-- `getBorrowerRequest(requestId)`: bounds-checked read returning
`(borrower, amount, term, isActive)` — the encrypted score is not
exposed here. -/
def getBorrowerRequest (s : State) (requestId : Nat) :
    Except String (Address × Nat × Nat × Bool) :=
  match s.borrowerRequests[requestId]? with
  | none => .error "Invalid request ID"
  | some r => .ok (r.borrower, r.amount, r.term, r.isActive)

/-- `getLenderOffer(offerId)`: bounds-checked read returning
`(lender, borrowerRequestId, amount, apr, term, isActive)`. -/
def getLenderOffer (s : State) (offerId : Nat) :
    Except String (Address × Nat × Nat × Nat × Nat × Bool) :=
  match s.lenderOffers[offerId]? with
  | none => .error "Invalid offer ID"
  | some o => .ok (o.lender, o.borrowerRequestId, o.amount, o.apr, o.term, o.isActive)

/-- `getLoan(loanId)`: bounds-checked read returning every loan field. -/
def getLoan (s : State) (loanId : Nat) :
    Except String (Address × Address × Nat × Nat × Nat × Nat × Bool × Bool) :=
  match s.loans[loanId]? with
  | none => .error "Invalid loan ID"
  | some l => .ok (l.borrower, l.lender, l.amount, l.apr, l.term, l.startTime, l.isActive, l.isRepaid)

/-- One transaction against the contract: any of the four state-mutating
entry points, called by any account with any arguments, whether it
succeeds or reverts (a reverted call leaves the state unchanged, so the
relation is reflexive-by-accident on failures). -/
inductive Step : State → State → Prop where
  | submitRequest (s : State) (caller : Address) (input : ExternalInput) (amount term : Nat) :
      Step s (submitBorrowerRequest s caller input amount term).2
  | checkScore (s : State) (caller : Address) (requestId minScore : Nat) :
      Step s (checkScoreMatch s caller requestId minScore).2
  | submitOffer (s : State) (caller : Address) (requestId amount apr term : Nat) :
      Step s (submitLenderOffer s caller requestId amount apr term).2
  | accept (s : State) (caller : Address) (msgValue blockTime offerId : Nat) :
      Step s (acceptLoanOffer s caller msgValue blockTime offerId).2

/-! ### Concrete demonstration states (the end-to-end scenario of the
test suite: account 1 is the borrower, account 2 the lender) -/

/-- Ledger after account 1 submits a request (score 750, amount 5000,
term 12). -/
def demoState1 : State :=
  (submitBorrowerRequest initialState 1 ⟨750, true⟩ 5000 12).2

/-- `demoState1` after account 2 submits offer 0 (amount 5000, apr 500,
term 12) on request 0. -/
def demoState2 : State :=
  (submitLenderOffer demoState1 2 0 5000 500 12).2

/-- `demoState2` after account 1 accepts offer 0 at time 1000 with no
attached value. -/
def demoState3 : State :=
  (acceptLoanOffer demoState2 1 0 1000 0).2

/-- `demoState2` with a second active offer (account 3, amount 4000,
apr 600, term 12) on the same request 0. -/
def demoTwoOffers : State :=
  (submitLenderOffer demoState2 3 0 4000 600 12).2

/-- `demoState3` after an unrelated fourth account submits a fresh
request: one more transaction on top of the closed request 0. -/
def demoState4 : State :=
  (submitBorrowerRequest demoState3 5 ⟨600, true⟩ 100 6).2

/-- `demoState1` with an offer submitted by the borrower on their own
request, with amount, apr and term all different from the request's. -/
def demoSelfOffer : State :=
  (submitLenderOffer demoState1 1 0 7 10000 120).2

/-- Existence and activity transfer between the same index of an old and
a new record collection: every record present before a transaction is
present after it, inactivity persisting, and every record the transaction
adds past the old length starts out active. -/
def ListPres {A : Type} (f : A → Bool) (l l2 : List A) : Prop :=
  (∀ (i : Nat) (r : A), l[i]? = some r →
    ∃ r2, l2[i]? = some r2 ∧ (f r = false → f r2 = false)) ∧
  (∀ (i : Nat) (r2 : A), l2[i]? = some r2 → l.length ≤ i → f r2 = true)

/-! ### Helper lemmas -/

theorem requestActive_iff (s : State) (i : Nat) :
    requestActive s i = true ↔ ∃ r, s.borrowerRequests[i]? = some r ∧ r.isActive = true := by
  unfold requestActive
  cases h : s.borrowerRequests[i]? <;> simp

/-! ### Claim C4 -/

/-- Claim C4: for every state and threshold, `findMatches` returns exactly
the indices of requests whose `isActive` is `true`, in ascending order;
the threshold has no effect on the result. (`findMatches` is a Solidity
`view` function; the embedding gives it no way to touch the state.) -/
theorem claim_C4_findMatches (s : State) (t : Nat) :
    (∀ i, i ∈ findMatches s t ↔ ∃ r, s.borrowerRequests[i]? = some r ∧ r.isActive = true) ∧
    List.Sorted (· < ·) (findMatches s t) ∧
    (∀ t', findMatches s t' = findMatches s t) := by
  refine ⟨?_, ?_, fun t' => rfl⟩
  · intro i
    simp only [findMatches, List.mem_filter, List.mem_range]
    constructor
    · rintro ⟨-, hact⟩
      exact (requestActive_iff s i).1 hact
    · intro h
      refine ⟨?_, (requestActive_iff s i).2 h⟩
      obtain ⟨r, hr, -⟩ := h
      exact (List.getElem?_eq_some.1 hr).1
  · exact (List.pairwise_lt_range _).filter _

/-! ### Claim C5 -/

/-- Claim C5: `submitBorrowerRequest` fails with the `InvalidAmount`
revert message unless `amount > 0`, and (amount being valid) with the
`InvalidTerm` message unless `1 ≤ term ≤ 120`; on success (valid inputs,
accepted proof) it appends exactly one new `BorrowerRequest` with the
caller as borrower, the given amount and term, and `isActive = true`, and
`getBorrowerRequest` on the new id returns exactly those fields. -/
theorem claim_C5_submitBorrowerRequest (s : State) (caller : Address) (input : ExternalInput)
    (amount term : Nat) :
    (amount = 0 →
      submitBorrowerRequest s caller input amount term =
        (.error "Amount must be greater than 0", s)) ∧
    (0 < amount → ¬(1 ≤ term ∧ term ≤ 120) →
      submitBorrowerRequest s caller input amount term =
        (.error "Term must be between 1-120 months", s)) ∧
    (0 < amount → 1 ≤ term → term ≤ 120 → input.proofValid = true →
      (submitBorrowerRequest s caller input amount term).1 = .ok () ∧
      (submitBorrowerRequest s caller input amount term).2.borrowerRequests =
        s.borrowerRequests ++
          [{ borrower := caller, encryptedScore := s.nextHandle, amount := amount,
             term := term, isActive := true }] ∧
      getBorrowerRequest (submitBorrowerRequest s caller input amount term).2
        s.borrowerRequests.length = .ok (caller, amount, term, true)) := by
  refine ⟨?_, ?_, ?_⟩
  · intro h
    simp [submitBorrowerRequest, h]
  · intro h1 h2
    simp only [submitBorrowerRequest, gt_iff_lt, if_pos h1]
    rw [if_neg]
    exact fun h => h2 ⟨h.1, h.2⟩
  · intro h1 h2 h3 h4
    have h5 : 0 < term := h2
    simp [submitBorrowerRequest, fheFromExternal, fheAllowThis, fheAllow, getBorrowerRequest,
      h1, h5, h3, h4, List.getElem?_concat_length]

/-- Witness for C5: the end-to-end scenario submission (score 750, amount
5000, term 12) at the fresh ledger. -/
theorem claim_C5_witness :
    (submitBorrowerRequest initialState 1 ⟨750, true⟩ 5000 12).1 = .ok () ∧
    getBorrowerRequest (submitBorrowerRequest initialState 1 ⟨750, true⟩ 5000 12).2 0 =
      .ok (1, 5000, 12, true) := by
  have h := (claim_C5_submitBorrowerRequest initialState 1 ⟨750, true⟩ 5000 12).2.2
    (by decide) (by decide) (by decide) rfl
  exact ⟨h.1, h.2.2⟩

/-! ### Claim C6 -/

/-- Claim C6: `submitLenderOffer` fails, in check order, with the
`InvalidRequest` message when `requestId` indexes no request, the
`InactiveRequest` message when that request is inactive, the
`InvalidAmount` message unless `amount > 0`, the `InvalidApr` message
unless `1 ≤ apr ≤ 10000`, and the `InvalidTerm` message unless
`1 ≤ term ≤ 120`; every failure returns the entry state unchanged, and on
success exactly one new active `LenderOffer` referencing `requestId` with
the caller as lender is appended, all other collections untouched. -/
theorem claim_C6_submitLenderOffer (s : State) (caller : Address)
    (rid amount apr term : Nat) :
    (s.borrowerRequests[rid]? = none →
      submitLenderOffer s caller rid amount apr term = (.error "Invalid request ID", s)) ∧
    (∀ request, s.borrowerRequests[rid]? = some request →
      (request.isActive = false →
        submitLenderOffer s caller rid amount apr term = (.error "Request is not active", s)) ∧
      (request.isActive = true → amount = 0 →
        submitLenderOffer s caller rid amount apr term =
          (.error "Amount must be greater than 0", s)) ∧
      (request.isActive = true → 0 < amount → ¬(1 ≤ apr ∧ apr ≤ 10000) →
        submitLenderOffer s caller rid amount apr term =
          (.error "APR must be between 1-10000 basis points", s)) ∧
      (request.isActive = true → 0 < amount → 1 ≤ apr → apr ≤ 10000 →
          ¬(1 ≤ term ∧ term ≤ 120) →
        submitLenderOffer s caller rid amount apr term =
          (.error "Term must be between 1-120 months", s)) ∧
      (request.isActive = true → 0 < amount → 1 ≤ apr → apr ≤ 10000 → 1 ≤ term →
          term ≤ 120 →
        (submitLenderOffer s caller rid amount apr term).1 = .ok () ∧
        (submitLenderOffer s caller rid amount apr term).2.lenderOffers =
          s.lenderOffers ++
            [{ lender := caller, borrowerRequestId := rid, amount := amount, apr := apr,
               term := term, isActive := true }] ∧
        (submitLenderOffer s caller rid amount apr term).2.borrowerRequests =
          s.borrowerRequests ∧
        (submitLenderOffer s caller rid amount apr term).2.loans = s.loans)) ∧
    (∀ e, (submitLenderOffer s caller rid amount apr term).1 = .error e →
      (submitLenderOffer s caller rid amount apr term).2 = s) := by
  refine ⟨?_, ?_, ?_⟩
  · intro h
    simp [submitLenderOffer, h]
  · intro request hreq
    refine ⟨?_, ?_, ?_, ?_, ?_⟩
    · intro h
      simp [submitLenderOffer, hreq, h]
    · intro h1 h2
      simp [submitLenderOffer, hreq, h1, h2]
    · intro h1 h2 h3
      have h4 : ¬(0 < apr ∧ apr ≤ 10000) := fun hc => h3 ⟨hc.1, hc.2⟩
      simp only [submitLenderOffer, hreq, h1, if_true, gt_iff_lt, if_pos h2]
      rw [if_neg h4]
    · intro h1 h2 h3 h4 h5
      have h3' : 0 < apr := h3
      have h6 : ¬(0 < term ∧ term ≤ 120) := fun hc => h5 ⟨hc.1, hc.2⟩
      simp only [submitLenderOffer, hreq, h1, if_true, gt_iff_lt, if_pos h2,
        if_pos (And.intro h3' h4)]
      rw [if_neg h6]
    · intro h1 h2 h3 h4 h5 h6
      have h3' : 0 < apr := h3
      have h5' : 0 < term := h5
      simp [submitLenderOffer, hreq, h1, h2, h3', h4, h5', h6]
  · intro e
    unfold submitLenderOffer
    cases h : s.borrowerRequests[rid]? <;> simp only []
    · simp
    · split_ifs <;> simp

/-- Witness for C6: offer 0 of the scenario is accepted by the ledger and
appended as an active offer referencing request 0. -/
theorem claim_C6_witness :
    (submitLenderOffer demoState1 2 0 5000 500 12).1 = .ok () ∧
    (submitLenderOffer demoState1 2 0 5000 500 12).2.lenderOffers =
      [{ lender := 2, borrowerRequestId := 0, amount := 5000, apr := 500, term := 12,
         isActive := true }] := by
  have h := ((claim_C6_submitLenderOffer demoState1 2 0 5000 500 12).2.1
    { borrower := 1, encryptedScore := 1, amount := 5000, term := 12, isActive := true }
    rfl).2.2.2.2 rfl (by decide) (by decide) (by decide) (by decide) (by decide)
  exact ⟨h.1, h.2.1⟩

/-! ### Claim C1 (corrected: the code additionally requires a zero
attached value) -/

/-- Counterexample to C1 as stated: in `demoState2` offer 0 is active,
its request is active, and the caller (account 1) is the request's
borrower — every precondition the claim lists holds — yet a call carrying
attached value 1 fails and creates no loan. -/
theorem claim_C1_counterexample :
    demoState2.lenderOffers[0]? =
      some { lender := 2, borrowerRequestId := 0, amount := 5000, apr := 500, term := 12,
             isActive := true } ∧
    demoState2.borrowerRequests[0]? =
      some { borrower := 1, encryptedScore := 1, amount := 5000, term := 12,
             isActive := true } ∧
    (acceptLoanOffer demoState2 1 1 1000 0).1 = .error "Do not send ETH directly" ∧
    (acceptLoanOffer demoState2 1 1 1000 0).2.loans = [] :=
  ⟨rfl, rfl, rfl, rfl⟩

/-- Claim C1 (amended): `acceptLoanOffer` fails, in check order, with the
`InvalidOffer` message when `offerId` indexes no offer, the
`InactiveOffer` message when the offer is inactive, the `InactiveRequest`
message when the referenced request is inactive, and the `NotAuthorized`
message when the caller is not that request's borrower; when all of these
hold and additionally the call attaches zero value, it appends exactly
one new loan copying borrower from the request and lender, amount, apr
and term from the offer, stamped with the current time, active and not
repaid, and in the same step deactivates the request and the offer (and
nothing else). -/
theorem claim_C1_acceptLoanOffer (s : State) (caller : Address)
    (msgValue blockTime offerId : Nat) (hbt : blockTime < uint32Mod) :
    (s.lenderOffers[offerId]? = none →
      acceptLoanOffer s caller msgValue blockTime offerId = (.error "Invalid offer ID", s)) ∧
    (∀ offer, s.lenderOffers[offerId]? = some offer →
      (offer.isActive = false →
        acceptLoanOffer s caller msgValue blockTime offerId =
          (.error "Offer is not active", s)) ∧
      (offer.isActive = true →
        ∀ request, s.borrowerRequests[offer.borrowerRequestId]? = some request →
          (request.isActive = false →
            acceptLoanOffer s caller msgValue blockTime offerId =
              (.error "Borrower request is not active", s)) ∧
          (request.isActive = true → ¬request.borrower = caller →
            acceptLoanOffer s caller msgValue blockTime offerId =
              (.error "Only borrower can accept offer", s)) ∧
          (request.isActive = true → request.borrower = caller → msgValue = 0 →
            (acceptLoanOffer s caller msgValue blockTime offerId).1 = .ok () ∧
            (acceptLoanOffer s caller msgValue blockTime offerId).2.loans =
              s.loans ++
                [{ borrower := request.borrower, lender := offer.lender,
                   amount := offer.amount, apr := offer.apr, term := offer.term,
                   startTime := blockTime, isActive := true, isRepaid := false }] ∧
            (acceptLoanOffer s caller msgValue blockTime offerId).2.borrowerRequests =
              s.borrowerRequests.set offer.borrowerRequestId
                { request with isActive := false } ∧
            (acceptLoanOffer s caller msgValue blockTime offerId).2.lenderOffers =
              s.lenderOffers.set offerId { offer with isActive := false }))) := by
  refine ⟨?_, ?_⟩
  · intro h
    simp [acceptLoanOffer, h]
  · intro offer hoff
    refine ⟨?_, ?_⟩
    · intro h
      simp [acceptLoanOffer, hoff, h]
    · intro hact request hreq
      refine ⟨?_, ?_, ?_⟩
      · intro h
        simp [acceptLoanOffer, hoff, hact, hreq, h]
      · intro h1 h2
        simp [acceptLoanOffer, hoff, hact, hreq, h1, h2]
      · intro h1 h2 h3
        simp [acceptLoanOffer, hoff, hact, hreq, h1, h2, h3, Nat.mod_eq_of_lt hbt]

/-- Witness for C1 (amended): the end-to-end acceptance of offer 0 by
the borrower in `demoState2` creates exactly loan 0 and deactivates
request 0 and offer 0. -/
theorem claim_C1_witness :
    (acceptLoanOffer demoState2 1 0 1000 0).1 = .ok () ∧
    (acceptLoanOffer demoState2 1 0 1000 0).2.loans =
      [{ borrower := 1, lender := 2, amount := 5000, apr := 500, term := 12,
         startTime := 1000, isActive := true, isRepaid := false }] ∧
    (acceptLoanOffer demoState2 1 0 1000 0).2.borrowerRequests =
      [{ borrower := 1, encryptedScore := 1, amount := 5000, term := 12,
         isActive := false }] ∧
    (acceptLoanOffer demoState2 1 0 1000 0).2.lenderOffers =
      [{ lender := 2, borrowerRequestId := 0, amount := 5000, apr := 500, term := 12,
         isActive := false }] := by
  have h := (((claim_C1_acceptLoanOffer demoState2 1 0 1000 0 (by decide)).2
    { lender := 2, borrowerRequestId := 0, amount := 5000, apr := 500, term := 12,
      isActive := true } rfl).2 rfl
    { borrower := 1, encryptedScore := 1, amount := 5000, term := 12, isActive := true }
    rfl).2.2 rfl rfl rfl
  exact ⟨h.1, h.2.1, h.2.2.1, h.2.2.2⟩

/-! ### Claim C9 -/

/-- Claim C9 (implicit): even when the offer and its request are active
and the caller is the request's borrower, `acceptLoanOffer` fails with
the message `Do not send ETH directly` whenever the call attaches a
nonzero value, creating no loan and flipping no flag (the entry state is
returned unchanged). -/
theorem claim_C9_nonzero_value (s : State) (caller : Address)
    (msgValue blockTime offerId : Nat) (offer : LenderOffer) (request : BorrowerRequest)
    (hoff : s.lenderOffers[offerId]? = some offer) (hact : offer.isActive = true)
    (hreq : s.borrowerRequests[offer.borrowerRequestId]? = some request)
    (hra : request.isActive = true) (hbor : request.borrower = caller)
    (hv : msgValue ≠ 0) :
    acceptLoanOffer s caller msgValue blockTime offerId =
      (.error "Do not send ETH directly", s) := by
  simp [acceptLoanOffer, hoff, hact, hreq, hra, hbor, hv]

/-- Witness for C9: the same call as the counterexample of C1, seen
claim's side: attaching value 1 to an otherwise valid acceptance fails
with the dedicated message and leaves the ledger unchanged. -/
theorem claim_C9_witness :
    acceptLoanOffer demoState2 1 1 1000 0 = (.error "Do not send ETH directly", demoState2) :=
  claim_C9_nonzero_value demoState2 1 1 1000 0
    { lender := 2, borrowerRequestId := 0, amount := 5000, apr := 500, term := 12,
      isActive := true }
    { borrower := 1, encryptedScore := 1, amount := 5000, term := 12, isActive := true }
    rfl rfl rfl rfl rfl (by decide)

/-! ### Claim C2 -/

/-- Claim C2: with one request `rid` carrying two distinct active offers
`a` and `b`, a successful acceptance of `a` by the request's borrower
deactivates the request; a subsequent acceptance of `b` — by any caller
with any attached value — fails with the `InactiveRequest` message,
changes nothing, and so creates no second loan; offer `b` survives the
whole exchange with every field, `isActive` included, unchanged. -/
theorem claim_C2_mutual_exclusion (s : State) (a b rid : Nat)
    (offA offB : LenderOffer) (request : BorrowerRequest)
    (caller2 : Address) (v2 t1 t2 : Nat)
    (hab : a ≠ b)
    (ha : s.lenderOffers[a]? = some offA) (hb : s.lenderOffers[b]? = some offB)
    (haA : offA.isActive = true) (hbA : offB.isActive = true)
    (hra : offA.borrowerRequestId = rid) (hrb : offB.borrowerRequestId = rid)
    (hr : s.borrowerRequests[rid]? = some request) (hrA : request.isActive = true) :
    (acceptLoanOffer s request.borrower 0 t1 a).1 = .ok () ∧
    (acceptLoanOffer s request.borrower 0 t1 a).2.borrowerRequests[rid]? =
      some { request with isActive := false } ∧
    (acceptLoanOffer s request.borrower 0 t1 a).2.lenderOffers[b]? = some offB ∧
    acceptLoanOffer (acceptLoanOffer s request.borrower 0 t1 a).2 caller2 v2 t2 b =
      (.error "Borrower request is not active",
        (acceptLoanOffer s request.borrower 0 t1 a).2) ∧
    (acceptLoanOffer s request.borrower 0 t1 a).2.loans.length = s.loans.length + 1 := by
  have hrlen : rid < s.borrowerRequests.length := (List.getElem?_eq_some.1 hr).1
  have hstep : acceptLoanOffer s request.borrower 0 t1 a =
      (.ok (),
        { s with
          loans := s.loans ++
            [{ borrower := request.borrower, lender := offA.lender, amount := offA.amount,
               apr := offA.apr, term := offA.term, startTime := t1 % uint32Mod,
               isActive := true, isRepaid := false }]
          borrowerRequests := s.borrowerRequests.set rid { request with isActive := false }
          lenderOffers := s.lenderOffers.set a { offA with isActive := false }
          events := s.events ++
            [Event.loanCreated s.loans.length request.borrower offA.lender offA.amount] }) := by
    simp [acceptLoanOffer, ha, haA, hra, hr, hrA]
  rw [hstep]
  refine ⟨rfl, ?_, ?_, ?_, ?_⟩
  · simp [List.getElem?_set_self hrlen]
  · simp [List.getElem?_set_ne hab, hb]
  · simp [acceptLoanOffer, List.getElem?_set_ne hab, hb, hbA, hrb,
      List.getElem?_set_self hrlen]
  · simp

/-- Witness for C2: with offers 0 and 1 both live on request 0,
accepting offer 0 succeeds, offer 1 stays active and intact, and the
follow-up acceptance of offer 1 fails on the inactive request. -/
theorem claim_C2_witness :
    (acceptLoanOffer demoTwoOffers 1 0 1000 0).1 = .ok () ∧
    (acceptLoanOffer demoTwoOffers 1 0 1000 0).2.lenderOffers[1]? =
      some { lender := 3, borrowerRequestId := 0, amount := 4000, apr := 600, term := 12,
             isActive := true } ∧
    (acceptLoanOffer (acceptLoanOffer demoTwoOffers 1 0 1000 0).2 1 0 2000 1).1 =
      .error "Borrower request is not active" := by
  have h := claim_C2_mutual_exclusion demoTwoOffers 0 1 0
    { lender := 2, borrowerRequestId := 0, amount := 5000, apr := 500, term := 12,
      isActive := true }
    { lender := 3, borrowerRequestId := 0, amount := 4000, apr := 600, term := 12,
      isActive := true }
    { borrower := 1, encryptedScore := 1, amount := 5000, term := 12, isActive := true }
    1 0 1000 2000 (by decide) rfl rfl rfl rfl rfl rfl rfl rfl
  obtain ⟨h1, h2, h3, h4, h5⟩ := h
  exact ⟨h1, h3, by rw [h4]⟩

/-! ### Claim C3 -/

/-- Claim C3: `checkScoreMatch` fails with the `InvalidRequest` message
when `requestId` indexes no request and with the `InactiveRequest`
message when the request is inactive; otherwise it has the FHE service
compute the encrypted boolean "stored score ≥ threshold" into a fresh
handle, stores that handle in the comparison cache at exactly
`(requestId, minScore, caller)` — after which `getComparisonResult`
returns it there and is unchanged at every other key — grants decrypt
capability on it to the caller and to the ledger itself, and returns it.
A key never written reads as the empty sentinel handle `0`, never as an
error. The freshness hypothesis on the stored score handle holds in every
state the entry points can build, since stored handles are always drawn
below `nextHandle`. -/
theorem claim_C3_checkScoreMatch (s : State) (caller : Address) (requestId minScore : Nat)
    (hms : minScore < uint32Mod) :
    (s.borrowerRequests[requestId]? = none →
      checkScoreMatch s caller requestId minScore = (.error "Invalid request ID", s)) ∧
    (∀ request, s.borrowerRequests[requestId]? = some request →
      (request.isActive = false →
        checkScoreMatch s caller requestId minScore = (.error "Request is not active", s)) ∧
      (request.isActive = true → request.encryptedScore ≠ s.nextHandle →
        (checkScoreMatch s caller requestId minScore).1 = .ok (s.nextHandle + 1) ∧
        (checkScoreMatch s caller requestId minScore).2.handleVal (s.nextHandle + 1) =
          (if minScore ≤ s.handleVal request.encryptedScore then 1 else 0) ∧
        getComparisonResult (checkScoreMatch s caller requestId minScore).2
          requestId minScore caller = s.nextHandle + 1 ∧
        (∀ rid t c, ¬(rid = requestId ∧ t = minScore ∧ c = caller) →
          getComparisonResult (checkScoreMatch s caller requestId minScore).2 rid t c =
            getComparisonResult s rid t c) ∧
        (s.nextHandle + 1, Principal.ledger) ∈
          (checkScoreMatch s caller requestId minScore).2.allowed ∧
        (s.nextHandle + 1, Principal.acct caller) ∈
          (checkScoreMatch s caller requestId minScore).2.allowed)) ∧
    (∀ rid t c, (∀ e ∈ s.comparisonResults, e.1 ≠ (rid, t, c)) →
      getComparisonResult s rid t c = 0) := by
  refine ⟨?_, ?_, ?_⟩
  · intro h
    simp [checkScoreMatch, h]
  · intro request hreq
    refine ⟨?_, ?_⟩
    · intro h
      simp [checkScoreMatch, hreq, h]
    · intro hact hfresh
      refine ⟨?_, ?_, ?_, ?_, ?_, ?_⟩
      · simp [checkScoreMatch, hreq, hact, fheAsEuint32, fheGe, fheAllowThis, fheAllow]
      · simp [checkScoreMatch, hreq, hact, fheAsEuint32, fheGe, fheAllowThis, fheAllow,
          hfresh, Nat.mod_eq_of_lt hms, ge_iff_le]
      · simp [checkScoreMatch, hreq, hact, fheAsEuint32, fheGe, fheAllowThis, fheAllow,
          getComparisonResult, List.find?_cons]
      · intro rid t c hne
        have hbeq : (((requestId, minScore, caller) : Nat × Nat × Address) ==
            (rid, t, c)) = false := by
          simp only [beq_eq_false_iff_ne, ne_eq, Prod.mk.injEq, not_and]
          intro h1 h2 h3
          exact hne ⟨h1.symm, h2.symm, h3.symm⟩
        simp [checkScoreMatch, hreq, hact, fheAsEuint32, fheGe, fheAllowThis, fheAllow,
          getComparisonResult, List.find?_cons, hbeq]
      · simp [checkScoreMatch, hreq, hact, fheAsEuint32, fheGe, fheAllowThis, fheAllow]
      · simp [checkScoreMatch, hreq, hact, fheAsEuint32, fheGe, fheAllowThis, fheAllow]
  · intro rid t c hnone
    have hfind : s.comparisonResults.find? (fun e => e.1 == (rid, t, c)) = none := by
      rw [List.find?_eq_none]
      intro e he
      simpa using hnone e he
    simp [getComparisonResult, hfind]

/-- Witness for C3: lender 2 checks request 0 of the scenario against
threshold 700; the fresh handle 3 comes back, decrypts to 1 (since
750 ≥ 700), is cached for the key, and both the ledger and the lender
hold decrypt grants on it. -/
theorem claim_C3_witness :
    (checkScoreMatch demoState1 2 0 700).1 = .ok 3 ∧
    (checkScoreMatch demoState1 2 0 700).2.handleVal 3 = 1 ∧
    getComparisonResult (checkScoreMatch demoState1 2 0 700).2 0 700 2 = 3 ∧
    (3, Principal.ledger) ∈ (checkScoreMatch demoState1 2 0 700).2.allowed ∧
    (3, Principal.acct 2) ∈ (checkScoreMatch demoState1 2 0 700).2.allowed := by
  have h := ((claim_C3_checkScoreMatch demoState1 2 0 700 (by decide)).2.1
    { borrower := 1, encryptedScore := 1, amount := 5000, term := 12, isActive := true }
    rfl).2 rfl (by decide)
  exact ⟨h.1, h.2.1, h.2.2.1, h.2.2.2.2.1, h.2.2.2.2.2⟩

/-! ### Activity persistence machinery (claim C7) -/

theorem listPres_refl {A : Type} (f : A → Bool) (l : List A) : ListPres f l l := by
  constructor
  · intro i r hr
    exact ⟨r, hr, id⟩
  · intro i r2 hr2 hlen
    rw [List.getElem?_eq_none hlen] at hr2
    cases hr2

theorem listPres_append {A : Type} (f : A → Bool) (l : List A) (x : A) (hx : f x = true) :
    ListPres f l (l ++ [x]) := by
  constructor
  · intro i r hr
    have hi : i < l.length := (List.getElem?_eq_some.1 hr).1
    refine ⟨r, ?_, id⟩
    rw [List.getElem?_append, if_pos hi]
    exact hr
  · intro i r2 hr2 hlen
    rw [List.getElem?_append_right hlen] at hr2
    cases hk : i - l.length with
    | zero =>
      rw [hk] at hr2
      simp only [List.getElem?_cons_zero, Option.some.injEq] at hr2
      rw [← hr2]
      exact hx
    | succ n =>
      rw [hk] at hr2
      simp at hr2

theorem listPres_set {A : Type} (f : A → Bool) (l : List A) (j : Nat) (y : A)
    (hy : f y = false) : ListPres f l (l.set j y) := by
  constructor
  · intro i r hr
    have hi : i < l.length := (List.getElem?_eq_some.1 hr).1
    rw [List.getElem?_set]
    by_cases hj : j = i
    · rw [if_pos hj, if_pos (hj ▸ hi)]
      exact ⟨y, rfl, fun _ => hy⟩
    · rw [if_neg hj]
      exact ⟨r, hr, id⟩
  · intro i r2 hr2 hlen
    rw [List.getElem?_eq_none (by simpa using hlen)] at hr2
    cases hr2

/-- Effect of `submitBorrowerRequest` on the record collections: it never
touches offers, and either leaves the requests alone (a revert) or
appends one active request. -/
theorem submitBorrowerRequest_collections (s : State) (c : Address) (inp : ExternalInput)
    (a t : Nat) :
    ((submitBorrowerRequest s c inp a t).2.borrowerRequests = s.borrowerRequests ∨
      (submitBorrowerRequest s c inp a t).2.borrowerRequests = s.borrowerRequests ++
        [{ borrower := c, encryptedScore := s.nextHandle, amount := a, term := t,
           isActive := true }]) ∧
    (submitBorrowerRequest s c inp a t).2.lenderOffers = s.lenderOffers := by
  by_cases h1 : a > 0
  · by_cases h2 : t > 0 ∧ t ≤ 120
    · cases hp : inp.proofValid
      · simp [submitBorrowerRequest, fheFromExternal, h1, h2, hp]
      · simp [submitBorrowerRequest, fheFromExternal, fheAllowThis, fheAllow, h1, h2, hp]
    · simp [submitBorrowerRequest, h1, h2]
  · simp [submitBorrowerRequest, h1]

/-- Effect of `checkScoreMatch` on the record collections: none. -/
theorem checkScoreMatch_collections (s : State) (c : Address) (rid ms : Nat) :
    (checkScoreMatch s c rid ms).2.borrowerRequests = s.borrowerRequests ∧
    (checkScoreMatch s c rid ms).2.lenderOffers = s.lenderOffers := by
  cases hq : s.borrowerRequests[rid]? with
  | none => simp [checkScoreMatch, hq]
  | some request =>
    cases hact : request.isActive <;>
      simp [checkScoreMatch, hq, hact, fheAsEuint32, fheGe, fheAllowThis, fheAllow]

/-- Effect of `submitLenderOffer` on the record collections: it never
touches requests, and either leaves the offers alone (a revert) or
appends one active offer. -/
theorem submitLenderOffer_collections (s : State) (c : Address) (rid a apr t : Nat) :
    (submitLenderOffer s c rid a apr t).2.borrowerRequests = s.borrowerRequests ∧
    ((submitLenderOffer s c rid a apr t).2.lenderOffers = s.lenderOffers ∨
      (submitLenderOffer s c rid a apr t).2.lenderOffers = s.lenderOffers ++
        [{ lender := c, borrowerRequestId := rid, amount := a, apr := apr, term := t,
           isActive := true }]) := by
  cases hq : s.borrowerRequests[rid]? with
  | none => simp [submitLenderOffer, hq]
  | some request =>
    cases hact : request.isActive
    · simp [submitLenderOffer, hq, hact]
    · by_cases h1 : a > 0
      · by_cases h2 : apr > 0 ∧ apr ≤ 10000
        · by_cases h3 : t > 0 ∧ t ≤ 120
          · simp [submitLenderOffer, hq, hact, h1, h2, h3]
          · simp [submitLenderOffer, hq, hact, h1, h2, h3]
        · simp [submitLenderOffer, hq, hact, h1, h2]
      · simp [submitLenderOffer, hq, hact, h1]

/-- Effect of `acceptLoanOffer` on the record collections: either none
(a revert) or the accepted offer's request and the offer itself are both
overwritten with their deactivated copies. -/
theorem acceptLoanOffer_collections (s : State) (c : Address) (v bt oid : Nat) :
    ((acceptLoanOffer s c v bt oid).2.borrowerRequests = s.borrowerRequests ∧
      (acceptLoanOffer s c v bt oid).2.lenderOffers = s.lenderOffers) ∨
    (∃ offer request,
      s.lenderOffers[oid]? = some offer ∧
      s.borrowerRequests[offer.borrowerRequestId]? = some request ∧
      (acceptLoanOffer s c v bt oid).2.borrowerRequests =
        s.borrowerRequests.set offer.borrowerRequestId { request with isActive := false } ∧
      (acceptLoanOffer s c v bt oid).2.lenderOffers =
        s.lenderOffers.set oid { offer with isActive := false }) := by
  cases ho : s.lenderOffers[oid]? with
  | none => left; simp [acceptLoanOffer, ho]
  | some offer =>
    cases hact : offer.isActive with
    | false => left; simp [acceptLoanOffer, ho, hact]
    | true =>
      cases hr : s.borrowerRequests[offer.borrowerRequestId]? with
      | none => left; simp [acceptLoanOffer, ho, hact, hr]
      | some request =>
        cases hra : request.isActive with
        | false => left; simp [acceptLoanOffer, ho, hact, hr, hra]
        | true =>
          by_cases hb : request.borrower = c
          · by_cases hv : v = 0
            · right
              refine ⟨offer, request, rfl, hr, ?_, ?_⟩ <;>
                simp [acceptLoanOffer, ho, hact, hr, hra, hb, hv]
            · left; simp [acceptLoanOffer, ho, hact, hr, hra, hb, hv]
          · left; simp [acceptLoanOffer, ho, hact, hr, hra, hb]

/-- Every single transaction preserves existing requests and offers at
their indices (inactivity persisting) and creates new ones only active. -/
theorem step_listPres (s s2 : State) (hst : Step s s2) :
    ListPres BorrowerRequest.isActive s.borrowerRequests s2.borrowerRequests ∧
    ListPres LenderOffer.isActive s.lenderOffers s2.lenderOffers := by
  cases hst with
  | submitRequest c inp a t =>
    obtain ⟨hreq, hoff⟩ := submitBorrowerRequest_collections s c inp a t
    refine ⟨?_, hoff ▸ listPres_refl _ _⟩
    cases hreq with
    | inl h => exact h ▸ listPres_refl _ _
    | inr h => exact h ▸ listPres_append _ _ _ rfl
  | checkScore c rid ms =>
    obtain ⟨hreq, hoff⟩ := checkScoreMatch_collections s c rid ms
    exact ⟨hreq ▸ listPres_refl _ _, hoff ▸ listPres_refl _ _⟩
  | submitOffer c rid a apr t =>
    obtain ⟨hreq, hoff⟩ := submitLenderOffer_collections s c rid a apr t
    refine ⟨hreq ▸ listPres_refl _ _, ?_⟩
    cases hoff with
    | inl h => exact h ▸ listPres_refl _ _
    | inr h => exact h ▸ listPres_append _ _ _ rfl
  | accept c v bt oid =>
    cases acceptLoanOffer_collections s c v bt oid with
    | inl h => exact ⟨h.1 ▸ listPres_refl _ _, h.2 ▸ listPres_refl _ _⟩
    | inr h =>
      obtain ⟨offer, request, -, -, hreq, hoff⟩ := h
      exact ⟨hreq ▸ listPres_set _ _ _ _ rfl, hoff ▸ listPres_set _ _ _ _ rfl⟩

/-- Along any chain of transactions, a request or offer existing at some
index keeps existing there, and once inactive it stays inactive. -/
theorem rtg_persist (s s2 : State) (h : Relation.ReflTransGen Step s s2) :
    (∀ (i : Nat) (r : BorrowerRequest), s.borrowerRequests[i]? = some r →
      ∃ r2, s2.borrowerRequests[i]? = some r2 ∧
        (r.isActive = false → r2.isActive = false)) ∧
    (∀ (i : Nat) (o : LenderOffer), s.lenderOffers[i]? = some o →
      ∃ o2, s2.lenderOffers[i]? = some o2 ∧
        (o.isActive = false → o2.isActive = false)) := by
  induction h with
  | refl => exact ⟨fun i r hr => ⟨r, hr, id⟩, fun i o ho => ⟨o, ho, id⟩⟩
  | tail hstep hst ih =>
    obtain ⟨ihr, iho⟩ := ih
    obtain ⟨⟨pr, -⟩, ⟨po, -⟩⟩ := step_listPres _ _ hst
    constructor
    · intro i r hr
      obtain ⟨rm, hrm, him⟩ := ihr i r hr
      obtain ⟨r2, hr2, him2⟩ := pr i rm hrm
      exact ⟨r2, hr2, fun hf => him2 (him hf)⟩
    · intro i o ho
      obtain ⟨om, hom, him⟩ := iho i o ho
      obtain ⟨o2, ho2, him2⟩ := po i om hom
      exact ⟨o2, ho2, fun hf => him2 (him hf)⟩

/-! ### Claim C7 -/

/-- Claim C7: every request or offer a transaction appends is created
with `isActive = true`, and once a request's or offer's `isActive` has
become `false`, no later sequence of transactions ever shows it `true`
again — the closed state is terminal for both record kinds. -/
theorem claim_C7_terminal_deactivation :
    (∀ s s2, Step s s2 →
      (∀ (i : Nat) (r2 : BorrowerRequest), s2.borrowerRequests[i]? = some r2 →
        s.borrowerRequests.length ≤ i → r2.isActive = true) ∧
      (∀ (i : Nat) (o2 : LenderOffer), s2.lenderOffers[i]? = some o2 →
        s.lenderOffers.length ≤ i → o2.isActive = true)) ∧
    (∀ s s2, Relation.ReflTransGen Step s s2 →
      (∀ (i : Nat) (r : BorrowerRequest) (r2 : BorrowerRequest),
        s.borrowerRequests[i]? = some r → r.isActive = false →
        s2.borrowerRequests[i]? = some r2 → r2.isActive = false) ∧
      (∀ (i : Nat) (o : LenderOffer) (o2 : LenderOffer),
        s.lenderOffers[i]? = some o → o.isActive = false →
        s2.lenderOffers[i]? = some o2 → o2.isActive = false)) := by
  constructor
  · intro s s2 hst
    obtain ⟨⟨-, cr⟩, ⟨-, co⟩⟩ := step_listPres s s2 hst
    exact ⟨cr, co⟩
  · intro s s2 hrtg
    obtain ⟨pr, po⟩ := rtg_persist s s2 hrtg
    constructor
    · intro i r r2 hr hf hr2
      obtain ⟨r3, hr3, him⟩ := pr i r hr
      rw [hr2] at hr3
      cases hr3
      exact him hf
    · intro i o o2 ho hf ho2
      obtain ⟨o3, ho3, him⟩ := po i o ho
      rw [ho2] at ho3
      cases ho3
      exact him hf

/-- Witness for C7: request 0, deactivated by the acceptance in
`demoState3`, is still present and inactive after the further
transaction leading to `demoState4`. -/
theorem claim_C7_witness :
    demoState3.borrowerRequests[0]? =
      some { borrower := 1, encryptedScore := 1, amount := 5000, term := 12,
             isActive := false } ∧
    demoState4.borrowerRequests[0]? =
      some { borrower := 1, encryptedScore := 1, amount := 5000, term := 12,
             isActive := false } ∧
    BorrowerRequest.isActive
      { borrower := 1, encryptedScore := 1, amount := 5000, term := 12,
        isActive := false } = false := by
  refine ⟨rfl, rfl, ?_⟩
  exact (claim_C7_terminal_deactivation.2 demoState3 demoState4
    (Relation.ReflTransGen.single (Step.submitRequest demoState3 5 ⟨600, true⟩ 100 6))).1
    0 _ _ rfl rfl rfl

/-! ### Claim C10 -/

/-- Claim C10 (implicit): `submitLenderOffer` checks nothing about the
offer beyond the request's existence and activity and the offer's own
ranges — no relation between the offer's amount or term and the
request's, and no restriction on the submitting principal (the
hypotheses below mention neither) — and `acceptLoanOffer` copies the
offer's amount, apr and term into the loan, never the request's. -/
theorem claim_C10_no_cross_validation :
    (∀ s (caller : Address) (rid amount apr term : Nat) (request : BorrowerRequest),
      s.borrowerRequests[rid]? = some request → request.isActive = true →
      0 < amount → 1 ≤ apr → apr ≤ 10000 → 1 ≤ term → term ≤ 120 →
      (submitLenderOffer s caller rid amount apr term).1 = .ok () ∧
      (submitLenderOffer s caller rid amount apr term).2.lenderOffers =
        s.lenderOffers ++
          [{ lender := caller, borrowerRequestId := rid, amount := amount, apr := apr,
             term := term, isActive := true }]) ∧
    (∀ s (caller : Address) (blockTime offerId : Nat) (offer : LenderOffer)
        (request : BorrowerRequest),
      s.lenderOffers[offerId]? = some offer → offer.isActive = true →
      s.borrowerRequests[offer.borrowerRequestId]? = some request →
      request.isActive = true → request.borrower = caller →
      (acceptLoanOffer s caller 0 blockTime offerId).2.loans =
        s.loans ++
          [{ borrower := request.borrower, lender := offer.lender, amount := offer.amount,
             apr := offer.apr, term := offer.term, startTime := blockTime % uint32Mod,
             isActive := true, isRepaid := false }]) := by
  constructor
  · intro s caller rid amount apr term request hreq hact h1 h2 h3 h4 h5
    have h2' : 0 < apr := h2
    have h4' : 0 < term := h4
    simp [submitLenderOffer, hreq, hact, h1, h2', h3, h4', h5]
  · intro s caller blockTime offerId offer request hoff hact hreq hra hb
    simp [acceptLoanOffer, hoff, hact, hreq, hra, hb]

/-- Witness for C10: the borrower (account 1) successfully places an
offer of amount 7, apr 10000, term 120 on their own request (amount
5000, term 12), and accepting it yields a loan carrying the offer's
figures, not the request's. -/
theorem claim_C10_witness :
    (submitLenderOffer demoState1 1 0 7 10000 120).1 = .ok () ∧
    (acceptLoanOffer demoSelfOffer 1 0 2000 0).2.loans =
      [{ borrower := 1, lender := 1, amount := 7, apr := 10000, term := 120,
         startTime := 2000, isActive := true, isRepaid := false }] := by
  constructor
  · exact (claim_C10_no_cross_validation.1 demoState1 1 0 7 10000 120
      { borrower := 1, encryptedScore := 1, amount := 5000, term := 12, isActive := true }
      rfl rfl (by decide) (by decide) (by decide) (by decide) (by decide)).1
  · exact claim_C10_no_cross_validation.2 demoSelfOffer 1 2000 0
      { lender := 1, borrowerRequestId := 0, amount := 7, apr := 10000, term := 120,
        isActive := true }
      { borrower := 1, encryptedScore := 1, amount := 5000, term := 12, isActive := true }
      rfl rfl rfl rfl rfl

/-! ### Claim C8 (corrected: the functions return no value; the new id
travels in the emitted event) -/

/-- Counterexample to C8 as stated: at the concrete scenario calls, each
successful creation returns the bare unit value `()` — the Solidity
declarations carry no return type — so no id is returned; the id appears
only in the emitted event, as id 0 for each collection here. -/
theorem claim_C8_counterexample :
    (submitBorrowerRequest initialState 1 ⟨750, true⟩ 5000 12).1 = .ok () ∧
    (submitLenderOffer demoState1 2 0 5000 500 12).1 = .ok () ∧
    (acceptLoanOffer demoState2 1 0 1000 0).1 = .ok () ∧
    demoState3.events =
      [Event.newBorrowerRequest 0 1 5000, Event.newLenderOffer 0 0 2 5000,
        Event.loanCreated 0 1 2 5000] :=
  ⟨rfl, rfl, rfl, rfl⟩

/-- Claim C8 (amended): each successful creation operation returns no
value; instead it emits exactly one event carrying the id of the record
it created, and that id equals the collection's length before the call
(the record's index). -/
theorem claim_C8_event_carries_id :
    (∀ s (c : Address) (inp : ExternalInput) (a t : Nat),
      (submitBorrowerRequest s c inp a t).1 = .ok () →
      (submitBorrowerRequest s c inp a t).2.events =
        s.events ++ [Event.newBorrowerRequest s.borrowerRequests.length c a] ∧
      (submitBorrowerRequest s c inp a t).2.borrowerRequests.length =
        s.borrowerRequests.length + 1) ∧
    (∀ s (c : Address) (rid a apr t : Nat),
      (submitLenderOffer s c rid a apr t).1 = .ok () →
      (submitLenderOffer s c rid a apr t).2.events =
        s.events ++ [Event.newLenderOffer s.lenderOffers.length rid c a] ∧
      (submitLenderOffer s c rid a apr t).2.lenderOffers.length =
        s.lenderOffers.length + 1) ∧
    (∀ s (c : Address) (v bt oid : Nat),
      (acceptLoanOffer s c v bt oid).1 = .ok () →
      ∃ b l a,
        (acceptLoanOffer s c v bt oid).2.events =
          s.events ++ [Event.loanCreated s.loans.length b l a] ∧
        (acceptLoanOffer s c v bt oid).2.loans.length = s.loans.length + 1) := by
  refine ⟨?_, ?_, ?_⟩
  · intro s c inp a t h
    by_cases h1 : a > 0
    · by_cases h2 : t > 0 ∧ t ≤ 120
      · cases hp : inp.proofValid
        · exfalso
          simp [submitBorrowerRequest, fheFromExternal, h1, h2, hp] at h
        · constructor <;>
            simp [submitBorrowerRequest, fheFromExternal, fheAllowThis, fheAllow,
              h1, h2, hp]
      · exfalso
        simp [submitBorrowerRequest, h1, h2] at h
    · exfalso
      simp [submitBorrowerRequest, h1] at h
  · intro s c rid a apr t h
    cases hq : s.borrowerRequests[rid]? with
    | none => exfalso; simp [submitLenderOffer, hq] at h
    | some request =>
      cases hact : request.isActive with
      | false => exfalso; simp [submitLenderOffer, hq, hact] at h
      | true =>
        by_cases h1 : a > 0
        · by_cases h2 : apr > 0 ∧ apr ≤ 10000
          · by_cases h3 : t > 0 ∧ t ≤ 120
            · constructor <;> simp [submitLenderOffer, hq, hact, h1, h2, h3]
            · exfalso; simp [submitLenderOffer, hq, hact, h1, h2, h3] at h
          · exfalso; simp [submitLenderOffer, hq, hact, h1, h2] at h
        · exfalso; simp [submitLenderOffer, hq, hact, h1] at h
  · intro s c v bt oid h
    cases ho : s.lenderOffers[oid]? with
    | none => exfalso; simp [acceptLoanOffer, ho] at h
    | some offer =>
      cases hact : offer.isActive with
      | false => exfalso; simp [acceptLoanOffer, ho, hact] at h
      | true =>
        cases hr : s.borrowerRequests[offer.borrowerRequestId]? with
        | none => exfalso; simp [acceptLoanOffer, ho, hact, hr] at h
        | some request =>
          cases hra : request.isActive with
          | false => exfalso; simp [acceptLoanOffer, ho, hact, hr, hra] at h
          | true =>
            by_cases hb : request.borrower = c
            · by_cases hv : v = 0
              · refine ⟨request.borrower, offer.lender, offer.amount, ?_, ?_⟩ <;>
                  simp [acceptLoanOffer, ho, hact, hr, hra, hb, hv]
              · exfalso; simp [acceptLoanOffer, ho, hact, hr, hra, hb, hv] at h
            · exfalso; simp [acceptLoanOffer, ho, hact, hr, hra, hb] at h

/-- Witness for C8 (amended): the scenario calls emit
`NewBorrowerRequest`, `NewLenderOffer` and `LoanCreated` each carrying
id 0, the length of the respective collection before the call. -/
theorem claim_C8_witness :
    (submitBorrowerRequest initialState 1 ⟨750, true⟩ 5000 12).2.events =
      [Event.newBorrowerRequest 0 1 5000] ∧
    (submitLenderOffer demoState1 2 0 5000 500 12).2.events =
      [Event.newBorrowerRequest 0 1 5000, Event.newLenderOffer 0 0 2 5000] := by
  constructor
  · exact (claim_C8_event_carries_id.1 initialState 1 ⟨750, true⟩ 5000 12 rfl).1
  · exact (claim_C8_event_carries_id.2.1 demoState1 2 0 5000 500 12 rfl).1

/-- Witness for C4: in the one-request scenario state, `findMatches`
returns exactly `[0]` whatever the threshold. -/
theorem claim_C4_witness :
    (0 ∈ findMatches demoState1 700 ↔
      ∃ r, demoState1.borrowerRequests[0]? = some r ∧ r.isActive = true) ∧
    findMatches demoState1 700 = [0] ∧
    findMatches demoState1 999 = findMatches demoState1 700 := by
  refine ⟨(claim_C4_findMatches demoState1 700).1 0, rfl,
    (claim_C4_findMatches demoState1 700).2.2 999⟩
